import Mathlib

/-!
Shallow embedding of the Superstore analysis helpers
(`src/scripts/utils.py`) and proofs about them.

Modelling conventions:
* A pandas DataFrame of transaction rows is a `List Fila` of records.
* Monetary and numeric columns are rationals (`ℚ`); IEEE floats are not
  modelled bit-for-bit, but float division by zero (which yields a
  non-finite value, not an exception, under numpy) is represented by
  `Option ℚ` with `none` standing for the non-finite result.
* `pandas.Series.round(2)` is half-to-even rounding at two decimals,
  modelled exactly on `ℚ` by `round2`.
* `sort_values(..., ascending=False)` is modelled by `List.insertionSort`
  with the corresponding "descending" relation; the claims under study
  only concern sortedness and multiset content, never tie order.
* Dates are proleptic-Gregorian calendar dates; `Date.toDays` is the
  standard civil-from-days day count (1970-01-01 = 0), the day arithmetic
  pandas timestamps use at day resolution.
-/

/-- A calendar date as pandas exposes it at day resolution. -/
structure Date where
  year : ℕ
  month : ℕ
  day : ℕ
deriving DecidableEq, Repr

/-- Gregorian leap-year test. -/
def isLeap (y : ℕ) : Bool :=
  (y % 4 = 0 && y % 100 ≠ 0) || y % 400 = 0

/-- Days in a month of a given year. -/
def daysInMonth (y m : ℕ) : ℕ :=
  if m = 2 then (if isLeap y then 29 else 28)
  else if m = 4 ∨ m = 6 ∨ m = 9 ∨ m = 11 then 30
  else 31

/-- Day count of a civil date with epoch 1970-01-01 = 0 (Gregorian,
standard days-from-civil algorithm); this is the day arithmetic behind
pandas timestamp subtraction at day resolution. -/
def Date.toDays (dt : Date) : ℤ :=
  let y : ℤ := if dt.month ≤ 2 then (dt.year : ℤ) - 1 else (dt.year : ℤ)
  let era : ℤ := Int.fdiv y 400
  let yoe : ℤ := y - era * 400
  let mp : ℤ := if dt.month ≤ 2 then (dt.month : ℤ) + 9 else (dt.month : ℤ) - 3
  let doy : ℤ := (153 * mp + 2) / 5 + (dt.day : ℤ) - 1
  let doe : ℤ := yoe * 365 + yoe / 4 - yoe / 100 + doy
  era * 146097 + doe - 719468

/-- English weekday name of a date, as pandas `dt.day_name()` yields. -/
def Date.dayName (dt : Date) : String :=
  match (dt.toDays + 4).emod 7 with
  | 0 => "Sunday"
  | 1 => "Monday"
  | 2 => "Tuesday"
  | 3 => "Wednesday"
  | 4 => "Thursday"
  | 5 => "Friday"
  | _ => "Saturday"

/-- Split a character sequence at every dash. -/
def splitDash : List Char → List (List Char)
  | [] => [[]]
  | c :: rest =>
    if c = '-' then [] :: splitDash rest
    else
      match splitDash rest with
      | g :: gs => (c :: g) :: gs
      | [] => [[c]]

/-- The numeric value of a decimal digit character. -/
def digitVal (c : Char) : Option ℕ :=
  if '0' ≤ c ∧ c ≤ '9' then some (c.toNat - '0'.toNat) else none

/-- Parse a nonempty all-digit character sequence as a natural number. -/
def digitsToNat : List Char → Option ℕ
  | [] => none
  | cs => cs.foldlM (fun acc c => (digitVal c).map (fun v => acc * 10 + v)) 0

/-- Strict ISO `YYYY-MM-DD` date parsing with calendar validation: the
fragment of `pandas.to_datetime` string parsing exercised by this
repository's CSV dates; any other value is unparseable (`none`). -/
def parseDate (s : String) : Option Date :=
  match splitDash s.toList with
  | [ys, ms, ds] =>
    match digitsToNat ys, digitsToNat ms, digitsToNat ds with
    | some y, some m, some d =>
      if 1 ≤ m ∧ m ≤ 12 ∧ 1 ≤ d ∧ d ≤ daysInMonth y m then some ⟨y, m, d⟩
      else none
    | _, _, _ => none
  | _ => none

/-- Parse a whole text column; `pd.to_datetime` on a series fails the whole
conversion as soon as any value is unparseable. -/
def parseAll : List String → Option (List Date)
  | [] => some []
  | s :: rest =>
    match parseDate s, parseAll rest with
    | some d, some ds => some (d :: ds)
    | _, _ => none

/-- Half-to-even ("banker's") rounding of a rational to an integer: the
rounding mode of numpy/pandas `round`. -/
def rhe (q : ℚ) : ℤ :=
  let f : ℤ := ⌊q⌋
  let r : ℚ := q - f
  if r < 1/2 then f
  else if 1/2 < r then f + 1
  else if 2 ∣ f then f else f + 1

/-- `Series.round(2)`: half-to-even rounding at two decimal places. -/
def round2 (q : ℚ) : ℚ := (rhe (q * 100) : ℚ) / 100

theorem abs_rhe_sub_le (q : ℚ) : |(rhe q : ℚ) - q| ≤ 1/2 := by
  unfold rhe
  have hf : (⌊q⌋ : ℚ) ≤ q := Int.floor_le q
  have hf' : q < (⌊q⌋ : ℚ) + 1 := Int.lt_floor_add_one q
  by_cases h1 : q - (⌊q⌋ : ℚ) < 1/2
  · simp only [if_pos h1]
    rw [abs_sub_comm, abs_of_nonneg (by linarith)]
    linarith
  · simp only [if_neg h1]
    by_cases h2 : (1:ℚ)/2 < q - (⌊q⌋ : ℚ)
    · simp only [if_pos h2]
      push_cast
      rw [abs_of_nonneg (by linarith)]
      linarith
    · simp only [if_neg h2]
      have heq : q - (⌊q⌋ : ℚ) = 1/2 := le_antisymm (not_lt.mp h2) (not_lt.mp h1)
      by_cases h3 : (2:ℤ) ∣ ⌊q⌋
      · simp only [if_pos h3]
        rw [abs_sub_comm, abs_of_nonneg (by linarith)]
        linarith
      · simp only [if_neg h3]
        push_cast
        rw [abs_of_nonneg (by linarith)]
        linarith

theorem abs_round2_sub_le (q : ℚ) : |round2 q - q| ≤ 1/200 := by
  unfold round2
  have h := abs_rhe_sub_le (q * 100)
  have h100 : |((rhe (q * 100) : ℚ) - q * 100) / 100| ≤ (1/2) / 100 := by
    rw [abs_div]
    have : |(100:ℚ)| = 100 := by norm_num
    rw [this]
    linarith
  calc |(rhe (q * 100) : ℚ) / 100 - q|
      = |((rhe (q * 100) : ℚ) - q * 100) / 100| := by ring_nf
    _ ≤ (1/2) / 100 := h100
    _ = 1/200 := by norm_num

/-! ## Data loading and normalization (`cargar_datos`) -/

/-- The column-translation dictionary of `cargar_datos`
(`columnas_traducidas` in `src/scripts/utils.py`), in source order. -/
def columnas_traducidas : List (String × String) :=
  [("Row ID", "id_fila"),
   ("Order ID", "id_pedido"),
   ("Order Date", "fecha_pedido"),
   ("Ship Date", "fecha_envio"),
   ("Ship Mode", "modo_envio"),
   ("Customer ID", "id_cliente"),
   ("Customer Name", "nombre_cliente"),
   ("Segment", "segmento"),
   ("Country", "pais"),
   ("City", "ciudad"),
   ("State", "estado"),
   ("Postal Code", "codigo_postal"),
   ("Region", "region"),
   ("Product ID", "id_producto"),
   ("Category", "categoria"),
   ("Sub-Category", "subcategoria"),
   ("Product Name", "nombre_producto"),
   ("Sales", "ventas"),
   ("Quantity", "cantidad"),
   ("Discount", "descuento"),
   ("Profit", "ganancia")]

/-- How `DataFrame.rename(columns=...)` treats one column name: translated
if it is a key of the dictionary, kept unchanged otherwise. -/
def traducir (c : String) : String :=
  (columnas_traducidas.lookup c).getD c

/-- The header of the dataset returned by `cargar_datos`, as a function of
the CSV header: `df.rename(columns=columnas_traducidas)`. -/
def renameColumns (header : List String) : List String :=
  header.map traducir

theorem lookup_mem_values {l : List (String × String)} {a b : String}
    (h : l.lookup a = some b) : b ∈ l.map Prod.snd := by
  induction l with
  | nil => simp [List.lookup] at h
  | cons p t ih =>
    rw [List.lookup] at h
    by_cases hk : a == p.1
    · simp only [hk, if_pos] at h
      cases p
      simp_all [List.lookup]
    · cases p
      simp_all [List.lookup]

theorem traducir_key_eq_value :
    ∀ p ∈ columnas_traducidas, traducir p.1 = p.2 := by decide

theorem lookup_key_isSome :
    ∀ p ∈ columnas_traducidas, (columnas_traducidas.lookup p.1).isSome = true := by
  decide

theorem values_not_keys :
    ∀ v ∈ columnas_traducidas.map Prod.snd,
      ∀ p ∈ columnas_traducidas, v ≠ p.1 := by decide

/-- C1 (counterexample to the claim as stated): the translation dictionary
of `cargar_datos` has 21 recognized source columns, not 22. -/
theorem C1_not_22_columns :
    columnas_traducidas.length = 21 ∧ columnas_traducidas.length ≠ 22 := by decide

/-- C1 (amended): the rename of `cargar_datos` is a bijection on the fixed
21-column schema: source names and target names are each pairwise
distinct, and for every recognized source column present in the input
header, the renamed header contains the corresponding Spanish target and
no longer contains the source name. -/
theorem C1_rename_bijection :
    columnas_traducidas.length = 21 ∧
    (columnas_traducidas.map Prod.fst).Nodup ∧
    (columnas_traducidas.map Prod.snd).Nodup ∧
    ∀ (header : List String) (s t : String), (s, t) ∈ columnas_traducidas →
      s ∈ header → t ∈ renameColumns header ∧ s ∉ renameColumns header := by
  refine ⟨by decide, by decide, by decide, ?_⟩
  intro header s t hmem hs
  constructor
  · exact List.mem_map.mpr ⟨s, hs, traducir_key_eq_value (s, t) hmem⟩
  · intro hcon
    obtain ⟨x, hx, hxt⟩ := List.mem_map.mp hcon
    unfold traducir at hxt
    cases hl : columnas_traducidas.lookup x with
    | none =>
      rw [hl, Option.getD_none] at hxt
      have h2 := lookup_key_isSome (s, t) hmem
      rw [show (s, t).1 = s from rfl, ← hxt, hl] at h2
      exact Bool.noConfusion h2
    | some v =>
      rw [hl, Option.getD_some] at hxt
      exact values_not_keys v (lookup_mem_values hl) (s, t) hmem hxt

/-- C1 witness: instantiation at a concrete header containing the
recognized column "Sales" and an unrecognized column "Foo". -/
theorem C1_rename_bijection_witness :
    ("Sales", "ventas") ∈ columnas_traducidas ∧
    "Sales" ∈ ["Sales", "Foo"] ∧
    "ventas" ∈ renameColumns ["Sales", "Foo"] ∧
    "Sales" ∉ renameColumns ["Sales", "Foo"] := by
  refine ⟨by decide, by decide, ?_⟩
  exact C1_rename_bijection.2.2.2 ["Sales", "Foo"] "Sales" "ventas"
    (by decide) (by decide)

/-! ## The transaction dataset -/

/-- One line-item row of the renamed dataset, restricted to the columns the
analysis functions under study read. Numeric columns are rationals; the
order date is an already-parsed calendar date (the analysis functions are
called after enrichment). -/
structure Fila where
  id_pedido : String
  id_cliente : String
  nombre_cliente : String
  id_producto : String
  categoria : String
  subcategoria : String
  ventas : ℚ
  cantidad : ℚ
  descuento : ℚ
  ganancia : ℚ
  fecha_pedido : Date
deriving DecidableEq, Repr

/-- `df['ventas'].sum()`. -/
def sumVentas (df : List Fila) : ℚ := (df.map Fila.ventas).sum

/-- `df['ganancia'].sum()`. -/
def sumGanancia (df : List Fila) : ℚ := (df.map Fila.ganancia).sum

/-- `series.nunique()` over a projected column. -/
def nunique (l : List String) : ℕ := l.dedup.length

/-- The chronologically earlier of two dates (pandas Timestamp `min`). -/
def minDate (a b : Date) : Date := if a.toDays ≤ b.toDays then a else b

/-- The chronologically later of two dates (pandas Timestamp `max`). -/
def maxDate (a b : Date) : Date := if b.toDays ≤ a.toDays then a else b

/-- Zero-padding of a number to two digits, as in `strftime` fields. -/
def pad2 (n : ℕ) : String := if n < 10 then "0" ++ toString n else toString n

/-- `Timestamp.strftime('%Y-%m-%d')`. -/
def fmtDate (d : Date) : String :=
  toString d.year ++ "-" ++ pad2 d.month ++ "-" ++ pad2 d.day

/-! ## `crear_resumen_basico` -/

/-- The summary dictionary built by `crear_resumen_basico`. The
`total_columnas` entry (a property of the frame's schema, fixed here by
the record type) is left out of the model; `margen_promedio` is `none`
when the float division `ganancia.sum() / ventas.sum()` has a zero
denominator and hence yields a non-finite float. -/
structure Resumen where
  total_filas : ℕ
  periodo_datos : String
  total_ventas : ℚ
  total_ganancia : ℚ
  margen_promedio : Option ℚ
  pedidos_unicos : ℕ
  clientes_unicos : ℕ
  productos_unicos : ℕ
deriving DecidableEq, Repr

/-- `crear_resumen_basico` (utils.py:91-113). On an empty dataset
`df['fecha_pedido'].min()` is `NaT` and `strftime` on it raises, so the
call fails; on any nonempty dataset every entry is computed, the margin
division never raising (numpy float semantics). -/
def crear_resumen_basico (df : List Fila) : Except String Resumen :=
  match df with
  | [] => .error "NaT has no strftime"
  | f :: fs =>
    let fechas := (f :: fs).map Fila.fecha_pedido
    let v := sumVentas (f :: fs)
    let g := sumGanancia (f :: fs)
    .ok {
      total_filas := (f :: fs).length,
      periodo_datos :=
        fmtDate (fechas.foldl minDate f.fecha_pedido) ++ " a " ++
        fmtDate (fechas.foldl maxDate f.fecha_pedido),
      total_ventas := v,
      total_ganancia := g,
      margen_promedio := if v = 0 then none else some (g / v * 100),
      pedidos_unicos := nunique ((f :: fs).map Fila.id_pedido),
      clientes_unicos := nunique ((f :: fs).map Fila.id_cliente),
      productos_unicos := nunique ((f :: fs).map Fila.id_producto) }

/-- C3: on any dataset with the expected columns (nonempty, so the summary
is produced), the summary's totals are the column sums and the average
margin is 100 × total profit / total sales, with the non-finite sentinel
exactly when total sales is zero. -/
theorem C3_resumen_totales (df : List Fila) (hne : df ≠ []) :
    ∃ r : Resumen, crear_resumen_basico df = .ok r ∧
      r.total_ventas = sumVentas df ∧
      r.total_ganancia = sumGanancia df ∧
      (sumVentas df ≠ 0 →
        r.margen_promedio = some (100 * sumGanancia df / sumVentas df)) ∧
      (sumVentas df = 0 → r.margen_promedio = none) := by
  match df with
  | [] => exact absurd rfl hne
  | f :: fs =>
    refine ⟨_, rfl, rfl, rfl, ?_, ?_⟩
    · intro hv
      simp only [crear_resumen_basico, if_neg hv]
      rw [div_mul_eq_mul_div, mul_comm]
    · intro hv
      simp only [crear_resumen_basico, if_pos hv]

/-- C3 witness: the summary of a concrete two-row dataset. -/
theorem C3_resumen_totales_witness :
    ([⟨"O1", "C1", "Ana", "P1", "Tech", "Phones", 200, 2, 0, 50, ⟨2019, 5, 4⟩⟩,
      ⟨"O2", "C2", "Luis", "P2", "Office", "Paper", 100, 1, 0, 10, ⟨2019, 6, 1⟩⟩]
        : List Fila) ≠ [] ∧
    ∃ r : Resumen,
      crear_resumen_basico
        [⟨"O1", "C1", "Ana", "P1", "Tech", "Phones", 200, 2, 0, 50, ⟨2019, 5, 4⟩⟩,
         ⟨"O2", "C2", "Luis", "P2", "Office", "Paper", 100, 1, 0, 10, ⟨2019, 6, 1⟩⟩] = .ok r ∧
      r.total_ventas =
        sumVentas
          [⟨"O1", "C1", "Ana", "P1", "Tech", "Phones", 200, 2, 0, 50, ⟨2019, 5, 4⟩⟩,
           ⟨"O2", "C2", "Luis", "P2", "Office", "Paper", 100, 1, 0, 10, ⟨2019, 6, 1⟩⟩] ∧
      r.total_ganancia =
        sumGanancia
          [⟨"O1", "C1", "Ana", "P1", "Tech", "Phones", 200, 2, 0, 50, ⟨2019, 5, 4⟩⟩,
           ⟨"O2", "C2", "Luis", "P2", "Office", "Paper", 100, 1, 0, 10, ⟨2019, 6, 1⟩⟩] ∧
      (sumVentas
          [⟨"O1", "C1", "Ana", "P1", "Tech", "Phones", 200, 2, 0, 50, ⟨2019, 5, 4⟩⟩,
           ⟨"O2", "C2", "Luis", "P2", "Office", "Paper", 100, 1, 0, 10, ⟨2019, 6, 1⟩⟩] ≠ 0 →
        r.margen_promedio =
          some (100 *
            sumGanancia
              [⟨"O1", "C1", "Ana", "P1", "Tech", "Phones", 200, 2, 0, 50, ⟨2019, 5, 4⟩⟩,
               ⟨"O2", "C2", "Luis", "P2", "Office", "Paper", 100, 1, 0, 10, ⟨2019, 6, 1⟩⟩] /
            sumVentas
              [⟨"O1", "C1", "Ana", "P1", "Tech", "Phones", 200, 2, 0, 50, ⟨2019, 5, 4⟩⟩,
               ⟨"O2", "C2", "Luis", "P2", "Office", "Paper", 100, 1, 0, 10, ⟨2019, 6, 1⟩⟩])) ∧
      (sumVentas
          [⟨"O1", "C1", "Ana", "P1", "Tech", "Phones", 200, 2, 0, 50, ⟨2019, 5, 4⟩⟩,
           ⟨"O2", "C2", "Luis", "P2", "Office", "Paper", 100, 1, 0, 10, ⟨2019, 6, 1⟩⟩] = 0 →
        r.margen_promedio = none) :=
  ⟨by decide, C3_resumen_totales _ (by decide)⟩


/-- C4 (counterexample to the claim as stated): on a nonempty dataset whose
sales total is zero, `crear_resumen_basico` does not raise: numpy float
division by zero yields a non-finite value (modelled `none`), and the call
returns a full summary record. -/
theorem C4_zero_sales_no_error :
    (crear_resumen_basico
      [⟨"O1", "C1", "Ana", "P1", "Tech", "Phones", 0, 1, 0, 5, ⟨2019, 5, 4⟩⟩]).isOk = true ∧
    (crear_resumen_basico
      [⟨"O1", "C1", "Ana", "P1", "Tech", "Phones", 0, 1, 0, 5, ⟨2019, 5, 4⟩⟩]).toOption.map
        Resumen.margen_promedio = some none := by
  constructor
  · rfl
  · simp [crear_resumen_basico, sumVentas, Except.toOption]

/-- C4 (amended): on every nonempty dataset whose sales total is zero,
`crear_resumen_basico` returns a summary (it does not raise) whose average
margin is the non-finite float sentinel produced by the zero-denominator
division. -/
theorem C4_zero_sales_margin_sentinel (df : List Fila) (hne : df ≠ [])
    (hz : sumVentas df = 0) :
    ∃ r : Resumen, crear_resumen_basico df = .ok r ∧ r.margen_promedio = none := by
  match df with
  | [] => exact absurd rfl hne
  | f :: fs =>
    exact ⟨_, rfl, by simp only [crear_resumen_basico, if_pos hz]⟩

/-- C4 witness: the amended theorem applied to a concrete one-row dataset
with zero sales. -/
theorem C4_zero_sales_margin_sentinel_witness :
    ([⟨"O1", "C1", "Ana", "P1", "Tech", "Phones", 0, 1, 0, 5, ⟨2019, 5, 4⟩⟩]
        : List Fila) ≠ [] ∧
    sumVentas [⟨"O1", "C1", "Ana", "P1", "Tech", "Phones", 0, 1, 0, 5, ⟨2019, 5, 4⟩⟩] = 0 ∧
    ∃ r : Resumen,
      crear_resumen_basico
        [⟨"O1", "C1", "Ana", "P1", "Tech", "Phones", 0, 1, 0, 5, ⟨2019, 5, 4⟩⟩] = .ok r ∧
      r.margen_promedio = none :=
  ⟨by decide, by simp [sumVentas],
   C4_zero_sales_margin_sentinel _ (by decide) (by simp [sumVentas])⟩

/-! ## `analizar_rentabilidad_por_categoria` -/

/-- One row of the table built by `analizar_rentabilidad_por_categoria`:
the rounded aggregates and the two ratio columns derived from them. The
`id_pedido` column holds the distinct-order count (pandas keeps the
aggregated column's name). The ratio columns are `none` when their float
division has a zero denominator and hence yields a non-finite value. -/
structure FilaCat where
  categoria : String
  ventas : ℚ
  ganancia : ℚ
  cantidad : ℚ
  id_pedido : ℕ
  margen_porcentaje : Option ℚ
  venta_promedio : Option ℚ
deriving DecidableEq, Repr

/-- The rows of one `groupby('categoria')` group. -/
def grupoCategoria (df : List Fila) (c : String) : List Fila :=
  df.filter (fun r => r.categoria = c)

/-- The distinct category keys. `groupby` lists group keys in ascending
order; the subsequent `sort_values` (whose default quicksort is not even
stable) makes the pre-sort order immaterial, so the keys are kept here in
`dedup` order. -/
def categorias (df : List Fila) : List String :=
  (df.map Fila.categoria).dedup

/-- The aggregation row of one category, as built by lines 205-213 of
utils.py: sums and distinct-order count rounded to 2 decimals first, then
`margen_porcentaje = ((ganancia / ventas) * 100).round(2)` and
`venta_promedio = (ventas / id_pedido).round(2)` derived from the already
rounded columns. -/
def mkFilaCat (df : List Fila) (c : String) : FilaCat :=
  { categoria := c,
    ventas := round2 (sumVentas (grupoCategoria df c)),
    ganancia := round2 (sumGanancia (grupoCategoria df c)),
    cantidad := round2 (((grupoCategoria df c).map Fila.cantidad).sum),
    id_pedido := nunique ((grupoCategoria df c).map Fila.id_pedido),
    margen_porcentaje :=
      if round2 (sumVentas (grupoCategoria df c)) = 0 then none
      else some (round2 (round2 (sumGanancia (grupoCategoria df c)) /
        round2 (sumVentas (grupoCategoria df c)) * 100)),
    venta_promedio :=
      if nunique ((grupoCategoria df c).map Fila.id_pedido) = 0 then none
      else some (round2 (round2 (sumVentas (grupoCategoria df c)) /
        (nunique ((grupoCategoria df c).map Fila.id_pedido) : ℚ))) }

/-- The descending-by-total-sales order of the final `sort_values`. -/
def porVentasDesc (a b : FilaCat) : Prop := b.ventas ≤ a.ventas

instance : DecidableRel porVentasDesc :=
  fun a b => inferInstanceAs (Decidable (b.ventas ≤ a.ventas))

instance : IsTotal FilaCat porVentasDesc :=
  ⟨fun a b => le_total b.ventas a.ventas⟩

instance : IsTrans FilaCat porVentasDesc :=
  ⟨fun _ _ _ h1 h2 => le_trans h2 h1⟩

/-- `analizar_rentabilidad_por_categoria` (utils.py:195-215). -/
def analizar_rentabilidad_por_categoria (df : List Fila) : List FilaCat :=
  List.insertionSort porVentasDesc ((categorias df).map (mkFilaCat df))

theorem rhe_intCast (n : ℤ) : rhe (n : ℚ) = n := by
  unfold rhe
  norm_num [Int.floor_intCast]

theorem round2_eq_self {q : ℚ} {n : ℤ} (h : q * 100 = (n : ℚ)) : round2 q = q := by
  unfold round2
  rw [h, rhe_intCast, ← h]
  field_simp

/-- The synthetic 3-row round-trip dataset of the spec's testable
properties: two "Office" rows with sales 100 and 200 and profits 10 and
20, plus one "Tech" row. -/
def dfEscenario : List Fila :=
  [⟨"O1", "C1", "Ana", "P1", "Office", "Paper", 100, 1, 0, 10, ⟨2019, 5, 4⟩⟩,
   ⟨"O2", "C2", "Luis", "P2", "Office", "Binders", 200, 2, 0, 20, ⟨2019, 6, 1⟩⟩,
   ⟨"O3", "C3", "Eva", "P3", "Tech", "Phones", 50, 1, 0, 5, ⟨2019, 7, 1⟩⟩]

theorem escenario_grupo_office : grupoCategoria dfEscenario "Office" =
    [⟨"O1", "C1", "Ana", "P1", "Office", "Paper", 100, 1, 0, 10, ⟨2019, 5, 4⟩⟩,
     ⟨"O2", "C2", "Luis", "P2", "Office", "Binders", 200, 2, 0, 20, ⟨2019, 6, 1⟩⟩] := by
  simp +decide [grupoCategoria, dfEscenario]

theorem escenario_grupo_tech : grupoCategoria dfEscenario "Tech" =
    [⟨"O3", "C3", "Eva", "P3", "Tech", "Phones", 50, 1, 0, 5, ⟨2019, 7, 1⟩⟩] := by
  simp +decide [grupoCategoria, dfEscenario]

theorem escenario_sumV_office : sumVentas (grupoCategoria dfEscenario "Office") = 300 := by
  rw [escenario_grupo_office]; norm_num [sumVentas]

theorem escenario_nunique_office :
    nunique ((grupoCategoria dfEscenario "Office").map Fila.id_pedido) = 2 := by
  rw [escenario_grupo_office]; decide

theorem escenario_office : mkFilaCat dfEscenario "Office" =
    ⟨"Office", 300, 30, 3, 2, some 10, some 150⟩ := by
  have hp : sumGanancia (grupoCategoria dfEscenario "Office") = 30 := by
    rw [escenario_grupo_office]; norm_num [sumGanancia]
  have hq : ((grupoCategoria dfEscenario "Office").map Fila.cantidad).sum = 3 := by
    rw [escenario_grupo_office]; norm_num
  have hr300 : round2 (300 : ℚ) = 300 := round2_eq_self (n := 30000) (by norm_num)
  have hr30 : round2 (30 : ℚ) = 30 := round2_eq_self (n := 3000) (by norm_num)
  have hr3 : round2 (3 : ℚ) = 3 := round2_eq_self (n := 300) (by norm_num)
  have hdiv : (30 : ℚ) / 300 * 100 = 10 := by norm_num
  have hr10 : round2 (10 : ℚ) = 10 := round2_eq_self (n := 1000) (by norm_num)
  have hdiv2 : (300 : ℚ) / ((2 : ℕ) : ℚ) = 150 := by norm_num
  have hr150 : round2 (150 : ℚ) = 150 := round2_eq_self (n := 15000) (by norm_num)
  rw [mkFilaCat, escenario_sumV_office, hp, hq, escenario_nunique_office,
    hr300, hr30, hr3, hdiv]
  norm_num [hr10, hdiv2, hr150]

theorem escenario_tech : mkFilaCat dfEscenario "Tech" =
    ⟨"Tech", 50, 5, 1, 1, some 10, some 50⟩ := by
  have hv : sumVentas (grupoCategoria dfEscenario "Tech") = 50 := by
    rw [escenario_grupo_tech]; norm_num [sumVentas]
  have hp : sumGanancia (grupoCategoria dfEscenario "Tech") = 5 := by
    rw [escenario_grupo_tech]; norm_num [sumGanancia]
  have hq : ((grupoCategoria dfEscenario "Tech").map Fila.cantidad).sum = 1 := by
    rw [escenario_grupo_tech]; norm_num
  have hn : nunique ((grupoCategoria dfEscenario "Tech").map Fila.id_pedido) = 1 := by
    rw [escenario_grupo_tech]; decide
  have hr50 : round2 (50 : ℚ) = 50 := round2_eq_self (n := 5000) (by norm_num)
  have hr5 : round2 (5 : ℚ) = 5 := round2_eq_self (n := 500) (by norm_num)
  have hr1 : round2 (1 : ℚ) = 1 := round2_eq_self (n := 100) (by norm_num)
  have hdiv : (5 : ℚ) / 50 * 100 = 10 := by norm_num
  have hr10 : round2 (10 : ℚ) = 10 := round2_eq_self (n := 1000) (by norm_num)
  have hdiv2 : (50 : ℚ) / ((1 : ℕ) : ℚ) = 50 := by norm_num
  rw [mkFilaCat, hv, hp, hq, hn, hr50, hr5, hr1, hdiv]
  norm_num [hr10, hdiv2, hr50]

theorem escenario_result : analizar_rentabilidad_por_categoria dfEscenario =
    [⟨"Office", 300, 30, 3, 2, some 10, some 150⟩,
     ⟨"Tech", 50, 5, 1, 1, some 10, some 50⟩] := by
  have hcat : categorias dfEscenario = ["Office", "Tech"] := by decide
  rw [analizar_rentabilidad_por_categoria, hcat, List.map_cons, List.map_cons,
    List.map_nil, escenario_office, escenario_tech]
  norm_num [List.insertionSort, List.orderedInsert, porVentasDesc]

/-- C5: the table of `analizar_rentabilidad_por_categoria` is ordered
descending by total sales; every finite margin percentage recomputes
within rounding tolerance (half of 0.01) as 100 × reported profit sum /
reported sales sum; and on the synthetic 3-row scenario the "Office"
category yields exactly sales 300, profit 30, margin 10.00. -/
theorem C5_rentabilidad_por_categoria (df : List Fila) :
    List.Sorted porVentasDesc (analizar_rentabilidad_por_categoria df) ∧
    (∀ r ∈ analizar_rentabilidad_por_categoria df, ∀ m : ℚ,
      r.margen_porcentaje = some m →
      |m - 100 * r.ganancia / r.ventas| ≤ 1/200) ∧
    (analizar_rentabilidad_por_categoria dfEscenario).map
        (fun r => (r.categoria, r.ventas, r.ganancia, r.margen_porcentaje)) =
      [("Office", 300, 30, some 10), ("Tech", 50, 5, some 10)] := by
  refine ⟨List.sorted_insertionSort _ _, ?_, ?_⟩
  · intro r hr m hm
    rw [analizar_rentabilidad_por_categoria, List.mem_insertionSort] at hr
    obtain ⟨c, -, rfl⟩ := List.mem_map.mp hr
    simp only [mkFilaCat] at hm ⊢
    by_cases hv : round2 (sumVentas (grupoCategoria df c)) = 0
    · rw [if_pos hv] at hm
      exact absurd hm (by simp)
    · rw [if_neg hv] at hm
      obtain rfl : round2 (round2 (sumGanancia (grupoCategoria df c)) /
          round2 (sumVentas (grupoCategoria df c)) * 100) = m :=
        Option.some.inj hm
      rw [show round2 (sumGanancia (grupoCategoria df c)) /
            round2 (sumVentas (grupoCategoria df c)) * 100 =
          100 * round2 (sumGanancia (grupoCategoria df c)) /
            round2 (sumVentas (grupoCategoria df c)) by ring]
      exact abs_round2_sub_le _
  · rw [escenario_result]
    norm_num

/-- C5 witness: the margin bound instantiated on the "Office" row of the
synthetic scenario. -/
theorem C5_rentabilidad_por_categoria_witness :
    (⟨"Office", 300, 30, 3, 2, some 10, some 150⟩ : FilaCat) ∈
        analizar_rentabilidad_por_categoria dfEscenario ∧
    |(10 : ℚ) - 100 * 30 / 300| ≤ 1/200 := by
  have hmem : (⟨"Office", 300, 30, 3, 2, some 10, some 150⟩ : FilaCat) ∈
      analizar_rentabilidad_por_categoria dfEscenario := by
    rw [escenario_result]
    exact List.mem_cons_self _ _
  exact ⟨hmem,
    (C5_rentabilidad_por_categoria dfEscenario).2.1 _ hmem 10 rfl⟩

/-- C10: the ratio columns of `analizar_rentabilidad_por_categoria` are
derived from the already-rounded aggregates: whenever the rounded sales
sum (resp. the distinct-order count) is nonzero, the row's margin equals
round2(100 × round2(profit sum) / round2(sales sum)) and its average sale
equals round2(round2(sales sum) / distinct-order count). -/
theorem C10_ratios_from_rounded (df : List Fila) :
    ∀ r ∈ analizar_rentabilidad_por_categoria df,
      (round2 (sumVentas (grupoCategoria df r.categoria)) ≠ 0 →
        r.margen_porcentaje = some (round2 (100 *
          round2 (sumGanancia (grupoCategoria df r.categoria)) /
          round2 (sumVentas (grupoCategoria df r.categoria))))) ∧
      (nunique ((grupoCategoria df r.categoria).map Fila.id_pedido) ≠ 0 →
        r.venta_promedio = some (round2 (
          round2 (sumVentas (grupoCategoria df r.categoria)) /
          (nunique ((grupoCategoria df r.categoria).map Fila.id_pedido) : ℚ)))) := by
  intro r hr
  rw [analizar_rentabilidad_por_categoria, List.mem_insertionSort] at hr
  obtain ⟨c, -, rfl⟩ := List.mem_map.mp hr
  simp only [mkFilaCat]
  constructor
  · intro hv
    rw [if_neg hv]
    rw [show round2 (sumGanancia (grupoCategoria df c)) /
          round2 (sumVentas (grupoCategoria df c)) * 100 =
        100 * round2 (sumGanancia (grupoCategoria df c)) /
          round2 (sumVentas (grupoCategoria df c)) by ring]
  · intro hn
    rw [if_neg hn]

/-- C10 witness: instantiation on the "Office" row of the synthetic
scenario, whose rounded sales sum is 300 and distinct-order count is 2. -/
theorem C10_ratios_from_rounded_witness :
    (⟨"Office", 300, 30, 3, 2, some 10, some 150⟩ : FilaCat) ∈
        analizar_rentabilidad_por_categoria dfEscenario ∧
    round2 (sumVentas (grupoCategoria dfEscenario "Office")) ≠ 0 ∧
    (some 10 : Option ℚ) = some (round2 (100 *
      round2 (sumGanancia (grupoCategoria dfEscenario "Office")) /
      round2 (sumVentas (grupoCategoria dfEscenario "Office")))) := by
  have hmem : (⟨"Office", 300, 30, 3, 2, some 10, some 150⟩ : FilaCat) ∈
      analizar_rentabilidad_por_categoria dfEscenario := by
    rw [escenario_result]
    exact List.mem_cons_self _ _
  have hv : round2 (sumVentas (grupoCategoria dfEscenario "Office")) ≠ 0 := by
    rw [escenario_sumV_office, round2_eq_self (n := 30000) (by norm_num)]
    norm_num
  exact ⟨hmem, hv, (C10_ratios_from_rounded dfEscenario _ hmem).1 hv⟩

/-! ## Top-N sub-categories by sales (line 176 of utils.py) -/

/-- The distinct sub-category keys (groupby keys; order immaterial, the
series is re-sorted by value). -/
def subcategorias (df : List Fila) : List String :=
  (df.map Fila.subcategoria).dedup

/-- `df.groupby('subcategoria')['ventas'].sum()` at one key. -/
def ventasSubcategoria (df : List Fila) (s : String) : ℚ :=
  sumVentas (df.filter (fun r => r.subcategoria = s))

/-- Descending-by-sales order on the summed (sub-category, sales) series. -/
def porVentasDescPar (a b : String × ℚ) : Prop := b.2 ≤ a.2

instance : DecidableRel porVentasDescPar :=
  fun a b => inferInstanceAs (Decidable (b.2 ≤ a.2))

instance : IsTotal (String × ℚ) porVentasDescPar :=
  ⟨fun a b => le_total b.2 a.2⟩

instance : IsTrans (String × ℚ) porVentasDescPar :=
  ⟨fun _ _ _ h1 h2 => le_trans h2 h1⟩

/-- The top-N aggregation used by `crear_grafico_top_productos`:
`df.groupby('subcategoria')['ventas'].sum().sort_values(ascending=False).head(top_n)`. -/
def top_productos (df : List Fila) (top_n : ℕ) : List (String × ℚ) :=
  (List.insertionSort porVentasDescPar
    ((subcategorias df).map (fun s => (s, ventasSubcategoria df s)))).take top_n

/-- C7: when N exceeds the number of distinct sub-category groups, the
top-N aggregation returns the whole summed series (every group appears),
still ordered descending by sales, and no error is possible (the function
is total). -/
theorem C7_topN_returns_all (df : List Fila) (n : ℕ)
    (h : (subcategorias df).length < n) :
    top_productos df n =
      List.insertionSort porVentasDescPar
        ((subcategorias df).map (fun s => (s, ventasSubcategoria df s))) ∧
    List.Sorted porVentasDescPar (top_productos df n) ∧
    ∀ s ∈ subcategorias df, s ∈ (top_productos df n).map Prod.fst := by
  have hlen : (List.insertionSort porVentasDescPar
      ((subcategorias df).map (fun s => (s, ventasSubcategoria df s)))).length ≤ n := by
    rw [List.length_insertionSort, List.length_map]
    exact le_of_lt h
  have htake := List.take_of_length_le hlen
  refine ⟨htake, ?_, ?_⟩
  · rw [top_productos, htake]
    exact List.sorted_insertionSort _ _
  · intro s hs
    rw [top_productos, htake]
    exact List.mem_map.mpr ⟨(s, ventasSubcategoria df s),
      (List.mem_insertionSort porVentasDescPar).mpr
        (List.mem_map.mpr ⟨s, hs, rfl⟩), rfl⟩

/-- C7 witness: the synthetic scenario has 3 distinct sub-categories, and
the default N = 10 returns all of them. -/
theorem C7_topN_returns_all_witness :
    (subcategorias dfEscenario).length < 10 ∧
    (top_productos dfEscenario 10 =
      List.insertionSort porVentasDescPar
        ((subcategorias dfEscenario).map
          (fun s => (s, ventasSubcategoria dfEscenario s))) ∧
    List.Sorted porVentasDescPar (top_productos dfEscenario 10) ∧
    ∀ s ∈ subcategorias dfEscenario,
      s ∈ (top_productos dfEscenario 10).map Prod.fst) :=
  ⟨by decide, C7_topN_returns_all dfEscenario 10 (by decide)⟩

/-! ## `analizar_valores_faltantes` -/

/-- A dataset as `analizar_valores_faltantes` observes it: the row count
and, per column, the null mask of its entries (`true` = value absent). A
real frame satisfies the invariant that every column has `nrows`
entries. -/
structure DFMask where
  nrows : ℕ
  cols : List (String × List Bool)
deriving DecidableEq, Repr

/-- One row of the missing-value report. -/
structure FilaFaltante where
  columna : String
  valores_faltantes : ℕ
  porcentaje : ℚ
deriving DecidableEq, Repr

/-- One row of the intermediate `resultado` frame (utils.py:125-132):
`isnull().sum()` per column, and `(count / len(df)) * 100`. -/
def mkFaltante (total : ℕ) (c : String × List Bool) : FilaFaltante :=
  { columna := c.1,
    valores_faltantes := c.2.count true,
    porcentaje := ((c.2.count true : ℚ) / (total : ℚ)) * 100 }

/-- Descending order by missing count, as in the final `sort_values`. -/
def porFaltantesDesc (a b : FilaFaltante) : Prop :=
  b.valores_faltantes ≤ a.valores_faltantes

instance : DecidableRel porFaltantesDesc :=
  fun a b => inferInstanceAs (Decidable (b.valores_faltantes ≤ a.valores_faltantes))

instance : IsTotal FilaFaltante porFaltantesDesc :=
  ⟨fun a b => Nat.le_total b.valores_faltantes a.valores_faltantes⟩

instance : IsTrans FilaFaltante porFaltantesDesc :=
  ⟨fun _ _ _ h1 h2 => le_trans h2 h1⟩

/-- `analizar_valores_faltantes` (utils.py:115-134): build the per-column
report, keep the rows with a positive missing count, sort descending. -/
def analizar_valores_faltantes (d : DFMask) : List FilaFaltante :=
  List.insertionSort porFaltantesDesc
    ((d.cols.map (mkFaltante d.nrows)).filter
      (fun r => 0 < r.valores_faltantes))

/-- C6: the missing-value report only contains columns with at least one
absent value, is ordered descending by missing count, each percentage is
count / total rows × 100, and an empty dataset yields the empty report
rather than an error. -/
theorem C6_valores_faltantes (d : DFMask)
    (hlen : ∀ c ∈ d.cols, c.2.length = d.nrows) :
    (∀ r ∈ analizar_valores_faltantes d, 0 < r.valores_faltantes) ∧
    List.Sorted porFaltantesDesc (analizar_valores_faltantes d) ∧
    (∀ r ∈ analizar_valores_faltantes d,
      r.porcentaje = (r.valores_faltantes : ℚ) / (d.nrows : ℚ) * 100) ∧
    (d.nrows = 0 → analizar_valores_faltantes d = []) := by
  refine ⟨?_, List.sorted_insertionSort _ _, ?_, ?_⟩
  · intro r hr
    rw [analizar_valores_faltantes, List.mem_insertionSort,
      List.mem_filter] at hr
    exact of_decide_eq_true hr.2
  · intro r hr
    rw [analizar_valores_faltantes, List.mem_insertionSort,
      List.mem_filter] at hr
    obtain ⟨c, -, rfl⟩ := List.mem_map.mp hr.1
    simp [mkFaltante]
  · intro h0
    rw [analizar_valores_faltantes]
    have hnil : (d.cols.map (mkFaltante d.nrows)).filter
        (fun r => 0 < r.valores_faltantes) = [] := by
      rw [List.filter_eq_nil_iff]
      intro r hr
      obtain ⟨c, hc, rfl⟩ := List.mem_map.mp hr
      have hlc : c.2.length = 0 := (hlen c hc).trans h0
      have hcount : c.2.count true = 0 :=
        Nat.le_zero.mp (hlc ▸ List.count_le_length true c.2)
      simp [mkFaltante, hcount]
    rw [hnil]
    rfl

/-- C6 witness: a concrete two-column, two-row dataset with one absent
value in the first column. -/
theorem C6_valores_faltantes_witness :
    (∀ c ∈ (DFMask.mk 2 [("ventas", [false, true]),
        ("ganancia", [false, false])]).cols,
      c.2.length = (DFMask.mk 2 [("ventas", [false, true]),
        ("ganancia", [false, false])]).nrows) ∧
    ((∀ r ∈ analizar_valores_faltantes
        (DFMask.mk 2 [("ventas", [false, true]), ("ganancia", [false, false])]),
        0 < r.valores_faltantes) ∧
    List.Sorted porFaltantesDesc (analizar_valores_faltantes
        (DFMask.mk 2 [("ventas", [false, true]), ("ganancia", [false, false])])) ∧
    (∀ r ∈ analizar_valores_faltantes
        (DFMask.mk 2 [("ventas", [false, true]), ("ganancia", [false, false])]),
        r.porcentaje = (r.valores_faltantes : ℚ) /
          ((DFMask.mk 2 [("ventas", [false, true]),
            ("ganancia", [false, false])]).nrows : ℚ) * 100) ∧
    ((DFMask.mk 2 [("ventas", [false, true]),
        ("ganancia", [false, false])]).nrows = 0 →
      analizar_valores_faltantes
        (DFMask.mk 2 [("ventas", [false, true]),
          ("ganancia", [false, false])]) = [])) :=
  ⟨by decide, C6_valores_faltantes _ (by decide)⟩

/-! ## `calcular_metricas_cliente` -/

/-- `min` of a date column (pandas: `NaT`/`none` on an empty group). -/
def minFecha : List Date → Option Date
  | [] => none
  | d :: ds => some (ds.foldl minDate d)

/-- `max` of a date column (pandas: `NaT`/`none` on an empty group). -/
def maxFecha : List Date → Option Date
  | [] => none
  | d :: ds => some (ds.foldl maxDate d)

/-- One row of the per-customer metrics table, after the multi-level
columns are flattened (utils.py:266). Numeric aggregates carry the
`.round(2)` of line 263; `ventas_mean` is `none` for an empty group
(pandas NaN) and `dias_como_cliente` is `none` when a date bound is
`NaT`. -/
structure FilaCli where
  id_cliente : String
  nombre_cliente : String
  ventas_sum : ℚ
  ventas_mean : Option ℚ
  ventas_count : ℕ
  ganancia_sum : ℚ
  cantidad_sum : ℚ
  fecha_pedido_min : Option Date
  fecha_pedido_max : Option Date
  dias_como_cliente : Option ℤ
deriving DecidableEq, Repr

/-- The distinct (customer id, customer name) groupby keys. -/
def clientes (df : List Fila) : List (String × String) :=
  (df.map (fun r => (r.id_cliente, r.nombre_cliente))).dedup

/-- The rows of one `groupby(['id_cliente', 'nombre_cliente'])` group. -/
def grupoCliente (df : List Fila) (k : String × String) : List Fila :=
  df.filter (fun r => r.id_cliente = k.1 ∧ r.nombre_cliente = k.2)

/-- The aggregation row of one customer (utils.py:258-271): sales
sum/mean/count, profit and quantity sums (rounded to 2 decimals), first
and last order date, and the derived tenure
`(fecha_pedido_max - fecha_pedido_min).dt.days`. -/
def mkFilaCli (df : List Fila) (k : String × String) : FilaCli :=
  { id_cliente := k.1,
    nombre_cliente := k.2,
    ventas_sum := round2 (sumVentas (grupoCliente df k)),
    ventas_mean :=
      if (grupoCliente df k).length = 0 then none
      else some (round2 (sumVentas (grupoCliente df k) /
        ((grupoCliente df k).length : ℚ))),
    ventas_count := (grupoCliente df k).length,
    ganancia_sum := round2 (sumGanancia (grupoCliente df k)),
    cantidad_sum := round2 (((grupoCliente df k).map Fila.cantidad).sum),
    fecha_pedido_min := minFecha ((grupoCliente df k).map Fila.fecha_pedido),
    fecha_pedido_max := maxFecha ((grupoCliente df k).map Fila.fecha_pedido),
    dias_como_cliente :=
      match minFecha ((grupoCliente df k).map Fila.fecha_pedido),
            maxFecha ((grupoCliente df k).map Fila.fecha_pedido) with
      | some a, some b => some (b.toDays - a.toDays)
      | _, _ => none }

/-- Descending order by summed sales, as in the final `sort_values`. -/
def porVentasSumDesc (a b : FilaCli) : Prop := b.ventas_sum ≤ a.ventas_sum

instance : DecidableRel porVentasSumDesc :=
  fun a b => inferInstanceAs (Decidable (b.ventas_sum ≤ a.ventas_sum))

instance : IsTotal FilaCli porVentasSumDesc :=
  ⟨fun a b => le_total b.ventas_sum a.ventas_sum⟩

instance : IsTrans FilaCli porVentasSumDesc :=
  ⟨fun _ _ _ h1 h2 => le_trans h2 h1⟩

/-- `calcular_metricas_cliente` (utils.py:248-273). -/
def calcular_metricas_cliente (df : List Fila) : List FilaCli :=
  List.insertionSort porVentasSumDesc ((clientes df).map (mkFilaCli df))

/-- C8 (counterexample to the claim as stated): a customer with exactly
one order row whose sales value is 0.001 gets a reported mean of 0.00,
not 0.001 — the aggregate table is rounded to two decimals (line 263)
before being returned. -/
theorem C8_mean_is_rounded :
    (calcular_metricas_cliente
      [⟨"O1", "C9", "Zoe", "P1", "Tech", "Phones", 1/1000, 1, 0, 0, ⟨2019, 5, 4⟩⟩]).map
      FilaCli.ventas_mean = [some 0] ∧
    (some (0 : ℚ) ≠ some ((1 : ℚ)/1000)) := by
  constructor
  · have hgr : grupoCliente
        [⟨"O1", "C9", "Zoe", "P1", "Tech", "Phones", 1/1000, 1, 0, 0, ⟨2019, 5, 4⟩⟩]
        ("C9", "Zoe") =
        [⟨"O1", "C9", "Zoe", "P1", "Tech", "Phones", 1/1000, 1, 0, 0, ⟨2019, 5, 4⟩⟩] := by
      simp only [grupoCliente, List.filter]
      norm_num
    have hcli : clientes
        [⟨"O1", "C9", "Zoe", "P1", "Tech", "Phones", 1/1000, 1, 0, 0, ⟨2019, 5, 4⟩⟩] =
        [("C9", "Zoe")] := by
      simp [clientes]
    rw [calcular_metricas_cliente, hcli]
    simp only [List.insertionSort, List.orderedInsert, List.map_cons, List.map_nil,
      mkFilaCli]
    rw [hgr]
    have hsv : sumVentas
        [(⟨"O1", "C9", "Zoe", "P1", "Tech", "Phones", 1/1000, 1, 0, 0,
          ⟨2019, 5, 4⟩⟩ : Fila)] = 1/1000 := by
      norm_num [sumVentas]
    rw [hsv]
    norm_num [round2, rhe]
  · intro hcon
    have := Option.some.inj hcon
    norm_num at this

/-- C8 (amended): a customer appearing in exactly one order row of the
dataset gets tenure `dias_como_cliente = 0` and a reported mean equal to
that row's sales value rounded to two decimals, and the call cannot
fail. -/
theorem C8_cliente_un_pedido (df : List Fila) (cid cn : String) (r : Fila)
    (h : df.filter (fun x => x.id_cliente = cid ∧ x.nombre_cliente = cn) = [r]) :
    (∃ x ∈ calcular_metricas_cliente df,
      x.id_cliente = cid ∧ x.nombre_cliente = cn) ∧
    ∀ x ∈ calcular_metricas_cliente df,
      x.id_cliente = cid → x.nombre_cliente = cn →
      x.dias_como_cliente = some 0 ∧ x.ventas_mean = some (round2 r.ventas) := by
  have hgr : grupoCliente df (cid, cn) = [r] := h
  have hr_mem : r ∈ df.filter
      (fun x => x.id_cliente = cid ∧ x.nombre_cliente = cn) := by
    rw [h]
    exact List.mem_cons_self _ _
  have hr_df : r ∈ df := (List.mem_filter.mp hr_mem).1
  have hr_pred := of_decide_eq_true (List.mem_filter.mp hr_mem).2
  have hkey : (cid, cn) ∈ clientes df := by
    rw [clientes, List.mem_dedup]
    exact List.mem_map.mpr ⟨r, hr_df, by rw [hr_pred.1, hr_pred.2]⟩
  constructor
  · exact ⟨mkFilaCli df (cid, cn),
      (List.mem_insertionSort porVentasSumDesc).mpr
        (List.mem_map.mpr ⟨(cid, cn), hkey, rfl⟩), rfl, rfl⟩
  · intro x hx h1 h2
    rw [calcular_metricas_cliente, List.mem_insertionSort] at hx
    obtain ⟨k, -, rfl⟩ := List.mem_map.mp hx
    have hk : k = (cid, cn) := Prod.ext h1 h2
    subst hk
    constructor
    · simp [mkFilaCli, hgr, minFecha, maxFecha]
    · simp [mkFilaCli, hgr, sumVentas]

/-- C8 witness: a concrete dataset in which customer ("C1", "Ana")
appears in exactly one order row. -/
theorem C8_cliente_un_pedido_witness :
    ([⟨"O1", "C1", "Ana", "P1", "Tech", "Phones", 2, 1, 0, 1, ⟨2019, 5, 4⟩⟩,
      ⟨"O2", "C2", "Luis", "P2", "Office", "Paper", 9, 1, 0, 1, ⟨2019, 6, 1⟩⟩]
        : List Fila).filter
      (fun x => x.id_cliente = "C1" ∧ x.nombre_cliente = "Ana") =
      [⟨"O1", "C1", "Ana", "P1", "Tech", "Phones", 2, 1, 0, 1, ⟨2019, 5, 4⟩⟩] ∧
    ((∃ x ∈ calcular_metricas_cliente
        [⟨"O1", "C1", "Ana", "P1", "Tech", "Phones", 2, 1, 0, 1, ⟨2019, 5, 4⟩⟩,
         ⟨"O2", "C2", "Luis", "P2", "Office", "Paper", 9, 1, 0, 1, ⟨2019, 6, 1⟩⟩],
        x.id_cliente = "C1" ∧ x.nombre_cliente = "Ana") ∧
    ∀ x ∈ calcular_metricas_cliente
        [⟨"O1", "C1", "Ana", "P1", "Tech", "Phones", 2, 1, 0, 1, ⟨2019, 5, 4⟩⟩,
         ⟨"O2", "C2", "Luis", "P2", "Office", "Paper", 9, 1, 0, 1, ⟨2019, 6, 1⟩⟩],
      x.id_cliente = "C1" → x.nombre_cliente = "Ana" →
      x.dias_como_cliente = some 0 ∧
      x.ventas_mean = some (round2
        (⟨"O1", "C1", "Ana", "P1", "Tech", "Phones", 2, 1, 0, 1,
          ⟨2019, 5, 4⟩⟩ : Fila).ventas)) :=
  ⟨by decide, C8_cliente_un_pedido _ "C1" "Ana" _ (by decide)⟩

/-! ## `procesar_fechas` -/

/-- A date column of the caller's dataframe: raw text before
`pd.to_datetime`, parsed calendar dates after. -/
inductive ColData
  | raw (vals : List String)
  | parsed (vals : List Date)
deriving DecidableEq, Repr

/-- `pd.to_datetime` on a column: parses text, passes parsed dates
through unchanged. -/
def parseCol : ColData → Option (List Date)
  | .raw vs => parseAll vs
  | .parsed ds => some ds

/-- The slice of the caller's dataframe object that `procesar_fechas`
reads and mutates: the two date columns and the five derived columns
(`none` = column absent from the frame); `anio` stands for the
source's `a\u00f1o` column. -/
structure FechasDF where
  fecha_pedido : ColData
  fecha_envio : ColData
  anio : Option (List ℕ)
  mes : Option (List ℕ)
  dia_semana : Option (List String)
  trimestre : Option (List ℕ)
  dias_envio : Option (List ℤ)
deriving DecidableEq, Repr

/-- `procesar_fechas` (utils.py:68-89) as a state transformer on the
caller's dataframe object: each successful column assignment mutates the
state in place, and a parse failure aborts the call at that statement,
leaving the state as mutated so far and surfacing the error (second
component). `dt.quarter` is `(month - 1) / 3 + 1` and `dt.days` of the
timestamp difference is the difference of civil day counts. -/
def procesar_fechas (df : FechasDF) : FechasDF × Option String :=
  match parseCol df.fecha_pedido with
  | none => (df, some "to_datetime: fecha_pedido")
  | some pedido =>
    match parseCol ({ df with fecha_pedido := .parsed pedido }).fecha_envio with
    | none => ({ df with fecha_pedido := .parsed pedido },
        some "to_datetime: fecha_envio")
    | some envio =>
      ({ df with
          fecha_pedido := .parsed pedido,
          fecha_envio := .parsed envio,
          anio := some (pedido.map Date.year),
          mes := some (pedido.map Date.month),
          dia_semana := some (pedido.map Date.dayName),
          trimestre := some (pedido.map (fun d => (d.month - 1) / 3 + 1)),
          dias_envio := some (List.zipWith
            (fun e p => e.toDays - p.toDays) envio pedido) },
        none)

theorem parseDate_month {s : String} {d : Date} (h : parseDate s = some d) :
    1 ≤ d.month ∧ d.month ≤ 12 := by
  unfold parseDate at h
  split at h
  · split at h
    · split at h
      · rename_i hc
        obtain rfl := Option.some.inj h
        exact ⟨hc.1, hc.2.1⟩
      · exact absurd h (by simp)
    · exact absurd h (by simp)
  · exact absurd h (by simp)

theorem parseAll_months {l : List String} {ds : List Date}
    (h : parseAll l = some ds) : ∀ d ∈ ds, 1 ≤ d.month ∧ d.month ≤ 12 := by
  induction l generalizing ds with
  | nil =>
    rw [parseAll] at h
    obtain rfl := Option.some.inj h
    simp
  | cons s rest ih =>
    rw [parseAll] at h
    cases hd : parseDate s with
    | none => rw [hd] at h; exact absurd h (by simp)
    | some d0 =>
      rw [hd] at h
      cases hr : parseAll rest with
      | none => rw [hr] at h; exact absurd h (by simp)
      | some ds0 =>
        rw [hr] at h
        obtain rfl := Option.some.inj h
        intro d hdm
        rcases List.mem_cons.mp hdm with rfl | hmem
        · exact parseDate_month hd
        · exact ih hr d hmem

theorem parseAll_eq_none {l : List String} {s : String}
    (hs : s ∈ l) (hn : parseDate s = none) : parseAll l = none := by
  induction l with
  | nil => simp at hs
  | cons a rest ih =>
    rw [parseAll]
    rcases List.mem_cons.mp hs with rfl | hmem
    · rw [hn]
    · rw [ih hmem]
      cases parseDate a <;> rfl

/-- C2: when both date columns parse, `procesar_fechas` succeeds; the
derived shipping-duration column is the per-row difference of ship date
and order date in whole days, the quarter column is `(month - 1) / 3 + 1`
per row and always lies in {1, 2, 3, 4}, and the derivation is a function
of the input state (two runs on equal inputs give equal outputs). -/
theorem C2_procesar_fechas (df : FechasDF) (ps es : List String)
    (P E : List Date)
    (hp : df.fecha_pedido = ColData.raw ps)
    (he : df.fecha_envio = ColData.raw es)
    (hP : parseAll ps = some P) (hE : parseAll es = some E) :
    ((procesar_fechas df).2 = none ∧
     (procesar_fechas df).1.dias_envio =
        some (List.zipWith (fun e p => e.toDays - p.toDays) E P) ∧
     (procesar_fechas df).1.trimestre =
        some (P.map (fun d => (d.month - 1) / 3 + 1)) ∧
     (∀ t ∈ P.map (fun d => (d.month - 1) / 3 + 1), 1 ≤ t ∧ t ≤ 4)) ∧
    (∀ df2 : FechasDF, df = df2 →
      procesar_fechas df = procesar_fechas df2) := by
  have hred : procesar_fechas df =
      ({ df with
          fecha_pedido := ColData.parsed P,
          fecha_envio := ColData.parsed E,
          anio := some (P.map Date.year),
          mes := some (P.map Date.month),
          dia_semana := some (P.map Date.dayName),
          trimestre := some (P.map (fun d => (d.month - 1) / 3 + 1)),
          dias_envio := some (List.zipWith
            (fun e p => e.toDays - p.toDays) E P) }, none) := by
    rw [procesar_fechas, hp]
    simp only [parseCol, hP]
    have henv : ({ df with fecha_pedido := ColData.parsed P }).fecha_envio =
        ColData.raw es := he
    rw [henv]
    simp only [parseCol, hE]
  refine ⟨⟨by rw [hred], by rw [hred], by rw [hred], ?_⟩,
    fun df2 hdf => by rw [hdf]⟩
  intro t ht
  obtain ⟨d, hd, rfl⟩ := List.mem_map.mp ht
  have hm := parseAll_months hP d hd
  omega

/-- C2 witness: a concrete one-row state whose dates are 2019-05-04 and
2019-05-06 (shipping duration 2 days, quarter 2). -/
theorem C2_procesar_fechas_witness :
    (FechasDF.mk (ColData.raw ["2019-05-04"]) (ColData.raw ["2019-05-06"])
        none none none none none).fecha_pedido = ColData.raw ["2019-05-04"] ∧
    parseAll ["2019-05-04"] = some [⟨2019, 5, 4⟩] ∧
    parseAll ["2019-05-06"] = some [⟨2019, 5, 6⟩] ∧
    (((procesar_fechas (FechasDF.mk (ColData.raw ["2019-05-04"])
          (ColData.raw ["2019-05-06"]) none none none none none)).2 = none ∧
      (procesar_fechas (FechasDF.mk (ColData.raw ["2019-05-04"])
          (ColData.raw ["2019-05-06"]) none none none none none)).1.dias_envio =
        some (List.zipWith (fun e p => e.toDays - p.toDays)
          ([⟨2019, 5, 6⟩] : List Date) ([⟨2019, 5, 4⟩] : List Date)) ∧
      (procesar_fechas (FechasDF.mk (ColData.raw ["2019-05-04"])
          (ColData.raw ["2019-05-06"]) none none none none none)).1.trimestre =
        some (([⟨2019, 5, 4⟩] : List Date).map (fun d => (d.month - 1) / 3 + 1)) ∧
      (∀ t ∈ ([⟨2019, 5, 4⟩] : List Date).map (fun d => (d.month - 1) / 3 + 1),
        1 ≤ t ∧ t ≤ 4)) ∧
     (∀ df2 : FechasDF,
        FechasDF.mk (ColData.raw ["2019-05-04"]) (ColData.raw ["2019-05-06"])
          none none none none none = df2 →
        procesar_fechas (FechasDF.mk (ColData.raw ["2019-05-04"])
          (ColData.raw ["2019-05-06"]) none none none none none) =
          procesar_fechas df2)) :=
  ⟨rfl, by decide, by decide,
   C2_procesar_fechas _ ["2019-05-04"] ["2019-05-06"] [⟨2019, 5, 4⟩]
     [⟨2019, 5, 6⟩] rfl rfl (by decide) (by decide)⟩

/-- C9: `procesar_fechas` is not atomic on a ship-date parse failure:
when the order-date column parses but some ship-date value does not, the
call errors out, yet the returned (caller-visible) state already has the
order-date column replaced by parsed dates, while the ship-date column
and the five derived columns are exactly as they were. -/
theorem C9_mutacion_parcial (df : FechasDF) (ps es : List String)
    (P : List Date)
    (hp : df.fecha_pedido = ColData.raw ps)
    (he : df.fecha_envio = ColData.raw es)
    (hP : parseAll ps = some P) (s : String) (hs : s ∈ es)
    (hbad : parseDate s = none) :
    procesar_fechas df =
      ({ df with fecha_pedido := ColData.parsed P },
       some "to_datetime: fecha_envio") := by
  rw [procesar_fechas, hp]
  simp only [parseCol, hP]
  have henv : ({ df with fecha_pedido := ColData.parsed P }).fecha_envio =
      ColData.raw es := he
  rw [henv]
  simp only [parseCol, parseAll_eq_none hs hbad]

/-- C9 witness: order dates parse, the single ship-date value "garbage"
does not; the state comes back with the order-date column parsed and
nothing else changed, along with the error. -/
theorem C9_mutacion_parcial_witness :
    parseAll ["2019-05-04"] = some [⟨2019, 5, 4⟩] ∧
    "garbage" ∈ ["garbage"] ∧
    parseDate "garbage" = none ∧
    procesar_fechas (FechasDF.mk (ColData.raw ["2019-05-04"])
        (ColData.raw ["garbage"]) none none none none none) =
      (FechasDF.mk (ColData.parsed [⟨2019, 5, 4⟩]) (ColData.raw ["garbage"])
        none none none none none,
       some "to_datetime: fecha_envio") :=
  ⟨by decide, by decide, by decide,
   C9_mutacion_parcial _ ["2019-05-04"] ["garbage"] [⟨2019, 5, 4⟩]
     rfl rfl (by decide) "garbage" (by decide) (by decide)⟩
